import Mathlib

/-!
Verification development for the Ogent microservice execution core.

The definitions below are shallow embeddings of the Python source:
* `services/command-execution/app.py` (command sandbox service),
* `services/langchain-agent/app/core/agents/base_agent.py`,
* `services/langchain-agent/app/core/agents/command_agent.py`,
* `backup/app_backup/core/tools/command_tool.py`,
* `services/langchain-agent/app/core/services/agent_service.py`,
* `services/langchain-agent/app/infrastructure/persistence/repositories.py`.
-/

/-- Word tokenization of Python `str.split()` with no argument: split on runs
of whitespace, discarding empty pieces.  `acc` accumulates the characters of
the current word in reverse. -/
def tokensAux : List Char → List Char → List String
  | [], acc => if acc.isEmpty then [] else [String.mk acc.reverse]
  | c :: cs, acc =>
    if c.isWhitespace then
      if acc.isEmpty then tokensAux cs []
      else String.mk acc.reverse :: tokensAux cs []
    else tokensAux cs (c :: acc)

/-- `pySplit s` models Python `s.split()`. -/
def pySplit (s : String) : List String :=
  tokensAux s.data []

/-- The `allowed_commands_config` dictionary of the command-execution service:
keys `"commands"` (allowed base commands) and `"paths"` (allowed path
prefixes). -/
structure AllowedCommandsConfig where
  commands : List String
  paths : List String
  deriving DecidableEq, Repr

/-- Python `s.startswith(p)`: `p` is a literal character prefix of `s`. -/
def pyStartsWith (s p : String) : Bool :=
  p.data.isPrefixOf s.data

/-- Does an argument token look like a filesystem path?  Mirrors
`part.startswith('/') or part.startswith('./') or part.startswith('../')`
in `is_command_allowed`. -/
def looksLikePath (part : String) : Bool :=
  pyStartsWith part "/" || pyStartsWith part "./" || pyStartsWith part "../"

/-- Embedding of `is_command_allowed` from `services/command-execution/app.py`
(lines 124-146): tokenize; empty token list is rejected; the base command must
be a member of the configured `commands` list; every path-looking argument
must have some configured path as a literal string prefix. -/
def is_command_allowed (config : AllowedCommandsConfig) (command : String) : Bool :=
  match pySplit command with
  | [] => false
  | base_command :: args =>
    if base_command ∈ config.commands then
      args.all (fun part =>
        if looksLikePath part then
          config.paths.any (fun allowed_path => pyStartsWith part allowed_path)
        else true)
    else false

/-- Response of the `/api/execute` endpoint (`execute_command` in
`services/command-execution/app.py`, lines 288-318).  `scheduled` is the only
branch that starts the background thread running the OS process. -/
inductive ExecuteResponse where
  | missingCommand : ExecuteResponse
  | notAllowed : ExecuteResponse
  | scheduled : String → ExecuteResponse
  deriving DecidableEq, Repr

/-- Embedding of the `execute_command` route: reject a request without a
command (HTTP 400), reject a command failing `is_command_allowed` (HTTP 403,
`Command not allowed`), otherwise schedule the command for execution in a
background thread. -/
def execute_command (config : AllowedCommandsConfig) (data : Option String) :
    ExecuteResponse :=
  match data with
  | none => ExecuteResponse.missingCommand
  | some command =>
    if is_command_allowed config command then ExecuteResponse.scheduled command
    else ExecuteResponse.notAllowed

/-- Embedding of `BaseAgent._can_execute_command`
(`services/langchain-agent/app/core/agents/base_agent.py`, lines 174-198),
over the `AgentPermissions` fields it reads.  Note the source comment: an
empty `allowed_commands` list means every command is allowed. -/
def can_execute_command (execute_commands : Bool) (allowed_commands : List String)
    (command : String) : Bool :=
  if !execute_commands then false
  else if allowed_commands.isEmpty then true
  else allowed_commands.any (fun allowed_command => pyStartsWith command allowed_command)

/-- Embedding of `_is_command_allowed` from
`backup/app_backup/core/tools/command_tool.py` (lines 112-144).  The calls to
Python `re.match` on the anchored pattern are abstracted by the parameter
`reMatch pattern text`, returning `none` when the pattern raises `re.error`
and `some b` otherwise; the two leading rules (empty list denies, `"*"`
allows) never reach the regex branch. -/
def is_command_allowed_tool (reMatch : String → String → Option Bool)
    (command : String) (allowed_patterns : List String) : Bool :=
  if allowed_patterns.isEmpty then false
  else if "*" ∈ allowed_patterns then true
  else
    let base_command := (command.splitOn " ").headD ""
    allowed_patterns.any (fun pattern =>
      match reMatch ("^" ++ pattern ++ "$") base_command with
      | some b =>
        b || (reMatch ("^" ++ pattern) command).getD false
      | none => base_command = pattern || pyStartsWith command pattern)

/-! ### Command-execution sandbox: the monitoring loop of `execute_command_task`
(`services/command-execution/app.py`, lines 147-259).

The OS process is modelled by the times (in seconds since the start of the
execution) at which it emits output lines and at which it exits; the loop is
modelled as a function of elapsed time.  Each iteration first checks
`time.time() - start_time > MAX_EXECUTION_TIME` (kill and report a timeout
failure), then `process.poll()` (process finished: completed on exit code 0,
failed otherwise), and otherwise calls `process.stdout.readline()`, which
blocks until the process writes its next line or exits (EOF); the 0.1 s
`time.sleep` is absorbed into the 1-second time granularity.  `none` means
the loop has not produced a result: either it ran out of fuel or it is
blocked forever inside `readline`. -/

/-- Outcome recorded by `update_execution_status` when the monitoring loop
finishes: `completed` (exit code 0), `failedExit` (non-zero exit code), or
`timedOut` (status `failed` with error `Execution timed out`). -/
inductive TaskOutcome where
  | completed : TaskOutcome
  | failedExit : TaskOutcome
  | timedOut : TaskOutcome
  deriving DecidableEq, Repr

/-- Final status of one `execute_command_task`, with the elapsed time (in
seconds) at which the loop reported it. -/
structure TaskResult where
  outcome : TaskOutcome
  finishTime : Nat
  deriving DecidableEq, Repr

/-- Behaviour of the spawned OS process: when it writes output lines and
when (if ever) it exits. -/
structure SandboxProcess where
  exitTime : Option Nat
  exitCode : Int
  outputTimes : List Nat
  deriving DecidableEq, Repr

/-- The time at which a `readline` issued at elapsed time `t` returns: the
earliest later output line or the process exit (EOF), `none` if the process
never writes again and never exits — `readline` then blocks forever. -/
def nextReadlineReturn (p : SandboxProcess) (t : Nat) : Option Nat :=
  let events := p.outputTimes.filter (fun o => t < o) ++
    (match p.exitTime with
     | some e => if t < e then [e] else []
     | none => [])
  events.foldr (fun a acc =>
    match acc with
    | none => some a
    | some b => some (min a b)) none

/-- Embedding of the `while True:` monitoring loop of `execute_command_task`,
driven by elapsed time `t`.  `fuel` bounds the number of iterations so the
definition is total; a blocked `readline` yields `none` for every fuel. -/
def execute_command_task_loop :
    Nat → Nat → SandboxProcess → Nat → Option TaskResult
  | 0, _, _, _ => none
  | fuel + 1, maxTime, p, t =>
    if maxTime < t then some ⟨TaskOutcome.timedOut, t⟩
    else
      match p.exitTime with
      | some e =>
        if e ≤ t then
          some ⟨if p.exitCode = 0 then TaskOutcome.completed else TaskOutcome.failedExit, t⟩
        else
          match nextReadlineReturn p t with
          | some t2 => execute_command_task_loop fuel maxTime p t2
          | none => none
      | none =>
        match nextReadlineReturn p t with
        | some t2 => execute_command_task_loop fuel maxTime p t2
        | none => none

/-! ### CommandAgent (`services/langchain-agent/app/core/agents/command_agent.py`)
with the permission check of `BaseAgent._can_execute_command`. -/

/-- `AgentPermissions` from
`services/langchain-agent/app/core/entities/agent.py` (lines 42-52). -/
structure AgentPermissions where
  execute_commands : Bool
  allowed_commands : List String
  allowed_paths : List String
  network_access : Bool
  memory_limit : Option Nat
  deriving DecidableEq, Repr

/-- One callback invocation recorded through `AgentCallback`
(`_handle_step` / `_handle_command` in `base_agent.py`): the step type and
content, or the command text with its status and result fields. -/
inductive CallbackItem where
  | step (stepType : String) (content : String) : CallbackItem
  | command (commandText : String) (status : String) (exitCode : Option Int)
      (stdout : Option String) (stderr : Option String)
      (durationMs : Option Nat) : CallbackItem
  deriving DecidableEq, Repr

/-- `AgentResult` (`app/core/agents/agent_result.py`), restricted to the
`output` and `error` fields (the metadata dictionary only carries timing). -/
structure AgentResult where
  output : Option String
  error : Option String
  deriving DecidableEq, Repr

/-- What `CommandAgent._execute_command` hands back after calling the
command-execution service (exceptions are already mapped by the source to
`exit_code` 1 with the message in `stderr`). -/
structure CommandExecResult where
  exit_code : Option Int
  stdout : String
  stderr : String
  duration_ms : Option Nat
  deriving DecidableEq, Repr

/-- Everything observable from one `CommandAgent.run` call: the returned
`AgentResult`, the callback items recorded (the callback is the service's
`ExecutionCallback`, always provided), and how many times the sandbox
(`CommandClient.execute_command`) was invoked. -/
structure RunOutput where
  result : AgentResult
  events : List CallbackItem
  sandboxCalls : Nat
  deriving DecidableEq, Repr

/-- The `output` string composed by `CommandAgent.run` from a command
result: command, exit code, then stdout/stderr sections when non-empty. -/
def commandOutputString (input : String) (r : CommandExecResult) : String :=
  let exitStr :=
    match r.exit_code with
    | some c => toString c
    | none => "Unknown"
  "Command: " ++ input ++ "\n" ++ "Exit Code: " ++ exitStr ++ "\n" ++
    (if r.stdout ≠ "" then "Output:\n" ++ r.stdout ++ "\n" else "") ++
    (if r.stderr ≠ "" then "Error:\n" ++ r.stderr ++ "\n" else "")

/-- Embedding of `CommandAgent.run` (lines 26-146 of `command_agent.py`).
`remoteValid` is the verdict of the external
`command_client.validate_command` call inside `_validate_command` (already
`false` on exceptions, per the source); `execResult` is what
`_execute_command` returns when the sandbox is actually called. -/
def commandAgentRun (perms : AgentPermissions) (remoteValid : Bool)
    (execResult : CommandExecResult) (input : String) : RunOutput :=
  if !perms.execute_commands then
    let msg := "Command execution is not allowed for this agent"
    ⟨⟨some msg, some msg⟩, [CallbackItem.step "thought" msg], 0⟩
  else
    let valid := perms.execute_commands &&
      can_execute_command perms.execute_commands perms.allowed_commands input &&
      remoteValid
    if !valid then
      let msg := "Command not allowed: " ++ input
      ⟨⟨some msg, some msg⟩, [CallbackItem.step "thought" msg], 0⟩
    else
      let status := if execResult.exit_code.getD 1 = 0 then "completed" else "failed"
      let output := commandOutputString input execResult
      let error := if status = "failed" then some execResult.stderr else none
      ⟨⟨some output, error⟩,
        [CallbackItem.step "thought" ("Executing command: " ++ input),
         CallbackItem.command input "running" none none none none,
         CallbackItem.command input status execResult.exit_code
           (some execResult.stdout) (some execResult.stderr) execResult.duration_ms,
         CallbackItem.step "final_answer" output],
        1⟩

/-- Is a callback item a Command record at all? -/
def isCommandItem : CallbackItem → Bool
  | CallbackItem.command _ _ _ _ _ _ => true
  | CallbackItem.step _ _ => false

/-- Is a callback item a step of the given type? -/
def isStepOfType (ty : String) : CallbackItem → Bool
  | CallbackItem.step stepType _ => stepType = ty
  | CallbackItem.command _ _ _ _ _ _ => false

/-! ### AgentService execution lifecycle
(`services/langchain-agent/app/core/services/agent_service.py`, with its
collaborators `SQLExecutionRepository` from
`app/infrastructure/persistence/repositories.py`, the SQLAlchemy models
from `app/infrastructure/persistence/models.py`, and the pydantic domain
entities from `app/domain/entities/execution.py`).

The service hands the repository core-entity dataclasses from
`app/core/entities`, while the repository imports and builds the pydantic
entities from `app/domain/entities`, and several call sites pass keyword
arguments the repository method does not declare.  The embedding models
the Python call and attribute protocol explicitly: every repository
interaction returns `Except PyExc`, and the error branches are the ones
the source actually takes. -/

/-- A raised Python exception, by class and message. -/
inductive PyExc where
  | typeError (message : String) : PyExc
  | attributeError (message : String) : PyExc
  | valueError (message : String) : PyExc
  | validationError (message : String) : PyExc
  deriving DecidableEq, Repr

/-- `str(e)` of an embedded exception. -/
def PyExc.message : PyExc → String
  | PyExc.typeError m => m
  | PyExc.attributeError m => m
  | PyExc.valueError m => m
  | PyExc.validationError m => m

/-- Field names of the core-entity `Execution` dataclass
(`app/core/entities/execution.py`, lines 85-105) — the entity
`AgentService` constructs and hands to the repository. -/
def coreExecutionFields : List String :=
  ["agent_id", "user_id", "input", "status", "id", "output", "error",
   "tokens_used", "steps", "commands", "started_at", "completed_at",
   "created_at", "metadata"]

/-- Python attribute access on the core-entity `Execution` dataclass:
`AttributeError` when the dataclass declares no such field. -/
def coreExecutionGetattr (name : String) : Except PyExc Unit :=
  if name ∈ coreExecutionFields then Except.ok ()
  else Except.error (PyExc.attributeError name)

/-- One persisted `executions` row, restricted to the fields the claims
read; the `status` column is `String(20)`. -/
structure ExecRecord where
  status : String
  output : Option String
  error : Option String
  deriving DecidableEq, Repr

/-- The domain (pydantic) `ExecutionStatus` enum
(`app/domain/entities/execution.py`, lines 14-23).  Note `cancelled` with
two l, unlike the core enum value `canceled`. -/
inductive DomainStatus where
  | pending : DomainStatus
  | running : DomainStatus
  | completed : DomainStatus
  | failed : DomainStatus
  | cancelled : DomainStatus
  | timeout : DomainStatus
  deriving DecidableEq, Repr

/-- The string value of each domain enum member. -/
def DomainStatus.value : DomainStatus → String
  | DomainStatus.pending => "pending"
  | DomainStatus.running => "running"
  | DomainStatus.completed => "completed"
  | DomainStatus.failed => "failed"
  | DomainStatus.cancelled => "cancelled"
  | DomainStatus.timeout => "timeout"

/-- Pydantic coercion of a stored status string into the domain enum. -/
def DomainStatus.ofString : String → Option DomainStatus
  | "pending" => some DomainStatus.pending
  | "running" => some DomainStatus.running
  | "completed" => some DomainStatus.completed
  | "failed" => some DomainStatus.failed
  | "cancelled" => some DomainStatus.cancelled
  | "timeout" => some DomainStatus.timeout
  | _ => none

/-- The domain-entity `Execution`, restricted to the status field the
cancel guard reads. -/
structure DomainExecution where
  status : DomainStatus
  deriving DecidableEq, Repr

/-- Does `_model_to_entity` supply a dict for the pydantic `metadata`
field?  `ExecutionModel` names its JSON column `execution_metadata`
(`models.py`, line 64), so `model.metadata` is the `MetaData` registry
inherited from the declarative `Base`, not a dict. -/
def modelMetadataIsDict : Bool := false

/-- Embedding of `SQLExecutionRepository._model_to_entity`
(`repositories.py`, lines 686-712): it passes `metadata=model.metadata` to
the pydantic domain `Execution`, whose `metadata` field requires a dict,
so validation fails for every stored row.  Were that field repaired, the
stored status string would still have to parse as a domain enum value
(`canceled`, the value the service writes on cancel, is not one). -/
def model_to_entity (r : ExecRecord) : Except PyExc DomainExecution :=
  if modelMetadataIsDict then
    match DomainStatus.ofString r.status with
    | some ds => Except.ok ⟨ds⟩
    | none => Except.error (PyExc.validationError "status: invalid enumeration member")
  else Except.error (PyExc.validationError "metadata: dictionary required")

/-- Embedding of `SQLExecutionRepository.get_by_id` (lines 415-445):
`None` for an unknown id; for a stored row the `_model_to_entity`
conversion runs and its exception is re-raised. -/
def repo_get_by_id (store : Option ExecRecord) :
    Except PyExc (Option DomainExecution) :=
  match store with
  | none => Except.ok none
  | some r =>
    match model_to_entity r with
    | Except.ok e => Except.ok (some e)
    | Except.error e => Except.error e

/-- Embedding of `SQLExecutionRepository.create` (lines 377-413) as
invoked by the service with a core-entity `Execution`: the
`ExecutionModel(...)` constructor call evaluates `execution.updated_at`
(line 399), a field the core dataclass does not declare, so the call
raises `AttributeError` before anything is inserted. -/
def repo_create (_store : Option ExecRecord) (r : ExecRecord) :
    Except PyExc (Option ExecRecord) :=
  match coreExecutionGetattr "updated_at" with
  | Except.error e => Except.error e
  | Except.ok _ => Except.ok (some r)

/-- The arguments supplied at one call site of
`SQLExecutionRepository.update_status`, whose declared signature
(`repositories.py`, lines 448-455) is
`(execution_id, status, output=None, error=None, metadata=None)`.
`metadata` records whether a metadata dict is passed; `started_at`,
`completed_at` and `tokens_used` record keywords that some call sites in
`agent_service.py` pass although the method does not declare them. -/
structure UpdateStatusCall where
  status : String
  output : Option String := none
  error : Option String := none
  metadata : Bool := false
  started_at : Bool := false
  completed_at : Bool := false
  tokens_used : Bool := false
  deriving DecidableEq, Repr

/-- Embedding of one `update_status` call, Python call protocol included.
An undeclared keyword raises `TypeError` before the body runs.  In the
body (lines 456-512): a missing row returns `None`; otherwise status,
output and error are assigned unconditionally — there is no guard against
overwriting a terminal status.  A supplied metadata dict is merged with
`execution_model.metadata.update(...)` — but that attribute is the
SQLAlchemy `MetaData` registry, which has no `update` method, so
`AttributeError` is raised and the rollback discards the assignments.
Without metadata the session commits, and the closing `_model_to_entity`
conversion then raises, so the caller sees an exception for every found
row even though the new status was committed.  Result: the store after
the call, and the returned value or the exception. -/
def repo_update_status (store : Option ExecRecord) (call : UpdateStatusCall) :
    Option ExecRecord × Except PyExc (Option DomainExecution) :=
  if call.started_at then
    (store, Except.error (PyExc.typeError "unexpected keyword argument started_at"))
  else if call.completed_at then
    (store, Except.error (PyExc.typeError "unexpected keyword argument completed_at"))
  else if call.tokens_used then
    (store, Except.error (PyExc.typeError "unexpected keyword argument tokens_used"))
  else
    match store with
    | none => (none, Except.ok none)
    | some r =>
      let r2 : ExecRecord :=
        { status := call.status
          output := match call.output with | some o => some o | none => r.output
          error := match call.error with | some e => some e | none => r.error }
      if call.metadata then
        (some r, Except.error (PyExc.attributeError "update"))
      else
        (some r2,
          match model_to_entity r2 with
          | Except.ok e => Except.ok (some e)
          | Except.error e => Except.error e)

/-- An event put on the per-execution streaming queue by
`_send_stream_event`: a status event or an error event. -/
inductive StreamEvent where
  | statusEvent (status : String) : StreamEvent
  | errorEvent (message : String) : StreamEvent
  deriving DecidableEq, Repr

/-- State of the service for one execution id: the persisted row (`none` =
unknown id), the items put on the streaming queue (`none` is the
end-of-stream sentinel), whether the id is registered in
`_streaming_executions`, whether the background `_execute_agent` task was
ever spawned, and the number of calls to `CommandClient.cancel_execution`
— the only way the service could signal the sandbox to kill an in-flight
command. -/
structure SvcState where
  store : Option ExecRecord
  queue : List (Option StreamEvent)
  registered : Bool
  taskSpawned : Bool
  sandboxCancelCalls : Nat
  deriving DecidableEq, Repr

/-- Embedding of `AgentService._send_stream_event`: the event is queued
only while the execution id is registered in `_streaming_executions`. -/
def send_stream_event (s : SvcState) (ev : StreamEvent) : SvcState :=
  if s.registered then { s with queue := s.queue ++ [some ev] } else s

/-- The `finally:` block of `_execute_agent` (lines 673-678): when the id
is still registered (which implies the run is streaming), pop the queue
registration and put the `None` end-of-stream sentinel. -/
def bg_finalize (s : SvcState) : SvcState :=
  if s.registered then { s with registered := false, queue := s.queue ++ [none] }
  else s

/-- The `except Exception` branch of `_execute_agent` (lines 653-672): it
calls `update_status` with `status=FAILED`, `error=str(e)` and the
undeclared keyword `completed_at=datetime.utcnow()`, so a `TypeError`
replaces the original exception and the error stream event after the
update is never sent; the `finally:` block still runs. -/
def bg_except (e : PyExc) (s : SvcState) : SvcState × Except PyExc Unit :=
  let upd := repo_update_status s.store
    { status := "failed", error := some e.message, completed_at := true }
  match upd.2 with
  | Except.error e2 => (bg_finalize { s with store := upd.1 }, Except.error e2)
  | Except.ok _ =>
    (bg_finalize (send_stream_event { s with store := upd.1 }
      (StreamEvent.errorEvent e.message)), Except.ok ())

/-- Embedding of the background task `AgentService._execute_agent`
(lines 564-678), with the agent lookup abstracted by `agentFound` and the
(never-awaited) agent outcome by `result`.  The `try` body: get the
execution (early return when the id is unknown; for every stored row the
entity conversion raises); on a missing agent, a legal `update_status`
call, which commits FAILED and then raises in its closing conversion;
then the running update with the undeclared `started_at` keyword
(`TypeError`, line 600); only after that would the running event, the
agent run, the completed update (always carrying a metadata dict, whose
merge raises) and the completed event follow.  Every exception lands in
`bg_except`; the `finally:` block always runs. -/
def execute_agent_bg (agentFound : Bool) (result : AgentResult) (s : SvcState) :
    SvcState × Except PyExc Unit :=
  match repo_get_by_id s.store with
  | Except.error e => bg_except e s
  | Except.ok none => (bg_finalize s, Except.ok ())
  | Except.ok (some _entity) =>
    if !agentFound then
      let upd := repo_update_status s.store
        { status := "failed", error := some "Agent not found" }
      match upd.2 with
      | Except.error e => bg_except e { s with store := upd.1 }
      | Except.ok _ => (bg_finalize { s with store := upd.1 }, Except.ok ())
    else
      let upd := repo_update_status s.store
        { status := "running", started_at := true }
      match upd.2 with
      | Except.error e => bg_except e { s with store := upd.1 }
      | Except.ok _ =>
        let s1 := send_stream_event { s with store := upd.1 }
          (StreamEvent.statusEvent "running")
        let upd2 := repo_update_status s1.store
          { status := "completed", output := result.output,
            error := result.error, metadata := true }
        match upd2.2 with
        | Except.error e => bg_except e { s1 with store := upd2.1 }
        | Except.ok _ =>
          (bg_finalize (send_stream_event { s1 with store := upd2.1 }
            (StreamEvent.statusEvent "completed")), Except.ok ())

/-- Embedding of `AgentService.start_execution` (lines 459-514): build a
core-entity `Execution` with status pending and await `create` — which
raises `AttributeError` on `execution.updated_at`; the streaming-queue
registration and the `asyncio.create_task(self._execute_agent(...))` come
after that await and are never reached. -/
def start_execution_svc (streaming : Bool) (s : SvcState) :
    SvcState × Except PyExc Unit :=
  match repo_create s.store ⟨"pending", none, none⟩ with
  | Except.error e => (s, Except.error e)
  | Except.ok st =>
    ({ s with store := st, registered := streaming, taskSpawned := true },
     Except.ok ())

/-- A Python `Enum` member, identified by its enum class and its value:
`==` across different enum classes is false even for equal values. -/
structure EnumMember where
  cls : String
  val : String
  deriving DecidableEq, Repr

/-- The first member the cancel guard (line 765) lists: the core
`ExecutionStatus.PENDING`. -/
def corePendingMember : EnumMember :=
  ⟨"core.ExecutionStatus", "pending"⟩

/-- The second member the cancel guard lists: the core
`ExecutionStatus.RUNNING`. -/
def coreRunningMember : EnumMember :=
  ⟨"core.ExecutionStatus", "running"⟩

/-- The status member carried by a converted domain entity. -/
def domainStatusMember (ds : DomainStatus) : EnumMember :=
  ⟨"domain.ExecutionStatus", ds.value⟩

/-- The guard test of `cancel_execution`, line 765:
`execution.status in [ExecutionStatus.PENDING, ExecutionStatus.RUNNING]`,
as membership of the entity status among the two core members. -/
def statusGuardAllows (m : EnumMember) : Bool :=
  m = corePendingMember || m = coreRunningMember

/-- Observable result of `AgentService.cancel_execution`: the `None`
return for an unknown id, a raised exception, or the success return. -/
inductive CancelResult where
  | notFound : CancelResult
  | exc (e : PyExc) : CancelResult
  | ok : CancelResult
  deriving DecidableEq, Repr

/-- Embedding of `AgentService.cancel_execution` (lines 749-785): get the
execution (`None` for an unknown id; the row conversion raises for every
stored row); the status guard compares the domain entity status against
the two core-enum members — members of a different enum class, never
equal — so a converted entity would raise the invalid-state `ValueError`
whatever its status; and the canceled update itself passes the undeclared
`completed_at` keyword.  No branch calls `CommandClient.cancel_execution`
and no branch touches the background task. -/
def cancel_execution_svc (s : SvcState) : SvcState × CancelResult :=
  match repo_get_by_id s.store with
  | Except.error e => (s, CancelResult.exc e)
  | Except.ok none => (s, CancelResult.notFound)
  | Except.ok (some entity) =>
    if statusGuardAllows (domainStatusMember entity.status) then
      let upd := repo_update_status s.store
        { status := "canceled", completed_at := true }
      match upd.2 with
      | Except.error e => ({ s with store := upd.1 }, CancelResult.exc e)
      | Except.ok _ =>
        (send_stream_event { s with store := upd.1 }
          (StreamEvent.statusEvent "canceled"), CancelResult.ok)
    else
      (s, CancelResult.exc (PyExc.valueError "Cannot cancel execution with status"))

/-- Terminal status strings of the data model: completed, failed,
canceled. -/
def isTerminalStatusString (st : String) : Bool :=
  st = "completed" || st = "failed" || st = "canceled"

/-- Is a queued item a terminal event in the sense of the spec: a
completion-equivalent status event (terminal status) or an error event?
The sentinel is not a terminal event. -/
def isTerminalEvent : Option StreamEvent → Bool
  | some (StreamEvent.statusEvent st) => isTerminalStatusString st
  | some (StreamEvent.errorEvent _) => true
  | none => false

/-- Is a queued item the end-of-stream sentinel? -/
def isSentinel : Option StreamEvent → Bool
  | none => true
  | some _ => false

/-! ## Theorems -/

/-- C1 (counterexample): the allow-list rules of the claim fail on two of the
three validators.  `BaseAgent._can_execute_command` allows `rm -rf /` under
an empty allow-list (the claim requires every command to be denied then),
and the command-execution service's `is_command_allowed` denies `ls` under
the pattern list `["*"]` (the claim requires every command to be allowed
then). -/
theorem allow_list_rules_counterexample :
    can_execute_command true [] "rm -rf /" = true ∧
    is_command_allowed ⟨["*"], []⟩ "ls" = false := by
  decide

/-- C1 (amended): the two leading allow-list rules hold exactly for the
backup command tool validator `_is_command_allowed` — a pattern list
containing `"*"` allows every command, an empty pattern list denies every
command — for every behaviour of the regex matcher.  The command-execution
service's `is_command_allowed` denies every command when its `commands`
list is empty but gives `"*"` no wildcard meaning, and
`BaseAgent._can_execute_command` allows every command when its allow-list
is empty. -/
theorem allow_list_rules_amended :
    (∀ (reMatch : String → String → Option Bool) (command : String)
        (patterns : List String), "*" ∈ patterns →
      is_command_allowed_tool reMatch command patterns = true) ∧
    (∀ (reMatch : String → String → Option Bool) (command : String),
      is_command_allowed_tool reMatch command [] = false) ∧
    (∀ (paths : List String) (command : String),
      is_command_allowed ⟨[], paths⟩ command = false) ∧
    (∀ command : String, can_execute_command true [] command = true) := by
  refine ⟨?_, ?_, ?_, ?_⟩
  · intro reMatch command patterns hmem
    cases patterns with
    | nil => cases hmem
    | cons p ps => simp [is_command_allowed_tool, hmem]
  · intro reMatch command
    rfl
  · intro paths command
    rcases h : pySplit command with _ | ⟨b, args⟩ <;>
      simp [is_command_allowed, h]
  · intro command
    rfl

/-- C1 (witness for the amended theorem, instantiated at a wildcard pattern
list for the backup tool validator). -/
theorem allow_list_rules_amended_witness :
    is_command_allowed_tool (fun _ _ => some false) "rm -rf /" ["ls", "*"] = true :=
  allow_list_rules_amended.1 (fun _ _ => some false) "rm -rf /" ["ls", "*"] (by decide)

/-- C3: `cancel_execution` cancels nothing.  For every service state it
leaves the whole state — the stored row, the streaming queue, the
background-task flag and the `CommandClient.cancel_execution` call count —
unchanged, and either returns `None` (unknown id) or raises (the entity
conversion fails for every stored row); it never reaches the canceled
update, never queues an event, never signals the sandbox to kill anything
and has no mechanism to stop the run loop. -/
theorem cancel_never_cancels_kills_or_stops :
    ∀ s : SvcState,
      (cancel_execution_svc s).1 = s ∧
      (cancel_execution_svc s).2 ≠ CancelResult.ok ∧
      (cancel_execution_svc s).1.sandboxCancelCalls = s.sandboxCancelCalls := by
  intro s
  rcases s with ⟨store, q, reg, task, n⟩
  rcases store with _ | r
  · exact ⟨rfl, by simp [cancel_execution_svc, repo_get_by_id], rfl⟩
  · exact ⟨rfl, by simp [cancel_execution_svc, repo_get_by_id, model_to_entity,
      modelMetadataIsDict], rfl⟩

/-- C4 (counterexample): when `permissions.execute_commands` is false and a
command is proposed, `CommandAgent.run` records no Command at all (in
particular no Denied command), records no `observation` step (only a
`thought` step), and ends the run with the denial set as the result's
error instead of continuing. -/
theorem denied_command_handling_counterexample :
    ((commandAgentRun ⟨false, [], [], false, none⟩ true
        ⟨some 0, "", "", none⟩ "ls").events.all
      (fun e => !isCommandItem e) = true) ∧
    ((commandAgentRun ⟨false, [], [], false, none⟩ true
        ⟨some 0, "", "", none⟩ "ls").events.all
      (fun e => !isStepOfType "observation" e) = true) ∧
    (commandAgentRun ⟨false, [], [], false, none⟩ true
        ⟨some 0, "", "", none⟩ "ls").result.error ≠ none := by
  decide

/-- C4 (amended): when `permissions.execute_commands` is false,
`CommandAgent.run` never calls the sandbox and records exactly one
`thought` step carrying the denial message — no Command entity and no
Observation step — and ends the run, returning the denial message as the
result's error, rather than continuing. -/
theorem denied_command_handling_amended (perms : AgentPermissions)
    (remoteValid : Bool) (execResult : CommandExecResult) (input : String)
    (h : perms.execute_commands = false) :
    (commandAgentRun perms remoteValid execResult input).sandboxCalls = 0 ∧
    (commandAgentRun perms remoteValid execResult input).events =
      [CallbackItem.step "thought" "Command execution is not allowed for this agent"] ∧
    (commandAgentRun perms remoteValid execResult input).result.error =
      some "Command execution is not allowed for this agent" := by
  have h1 : commandAgentRun perms remoteValid execResult input =
      ⟨⟨some "Command execution is not allowed for this agent",
        some "Command execution is not allowed for this agent"⟩,
       [CallbackItem.step "thought" "Command execution is not allowed for this agent"],
       0⟩ := by
    unfold commandAgentRun
    rw [h]
    rfl
  rw [h1]
  exact ⟨rfl, rfl, rfl⟩

/-- C4 (witness for the amended theorem). -/
theorem denied_command_handling_amended_witness :
    (commandAgentRun ⟨false, ["ls"], [], false, none⟩ false
        ⟨none, "", "", none⟩ "pwd").sandboxCalls = 0 ∧
    (commandAgentRun ⟨false, ["ls"], [], false, none⟩ false
        ⟨none, "", "", none⟩ "pwd").events =
      [CallbackItem.step "thought" "Command execution is not allowed for this agent"] ∧
    (commandAgentRun ⟨false, ["ls"], [], false, none⟩ false
        ⟨none, "", "", none⟩ "pwd").result.error =
      some "Command execution is not allowed for this agent" :=
  denied_command_handling_amended ⟨false, ["ls"], [], false, none⟩ false
    ⟨none, "", "", none⟩ "pwd" rfl

/-- C6: if the base command is allow-listed but some argument token that
looks like a filesystem path has no configured allowed path as a literal
prefix, `is_command_allowed` denies the command and the `/api/execute`
endpoint answers with the `Command not allowed` rejection — it never reaches
the branch that schedules the OS process. -/
theorem path_restriction_denies (config : AllowedCommandsConfig)
    (command base : String) (args : List String) (part : String)
    (hsplit : pySplit command = base :: args)
    (hbase : base ∈ config.commands)
    (hpart : part ∈ args)
    (hpath : looksLikePath part = true)
    (hnone : ∀ p ∈ config.paths, pyStartsWith part p = false) :
    is_command_allowed config command = false ∧
    (∀ c, execute_command config (some command) ≠ ExecuteResponse.scheduled c) ∧
    execute_command config (some command) = ExecuteResponse.notAllowed := by
  have hany : config.paths.any (fun allowed_path => pyStartsWith part allowed_path) = false := by
    rw [List.any_eq_false]
    intro p hp
    simp [hnone p hp]
  have hallowed : is_command_allowed config command = false := by
    simp only [is_command_allowed, hsplit]
    rw [if_pos hbase, List.all_eq_false]
    refine ⟨part, hpart, ?_⟩
    simp [hpath, hany]
  refine ⟨hallowed, ?_, ?_⟩
  · intro c
    simp [execute_command, hallowed]
  · simp [execute_command, hallowed]

/-- C6 (witness): `rm -rf /etc` with base command `rm` allow-listed and
allowed paths `["/tmp"]` is denied and not scheduled. -/
theorem path_restriction_denies_witness :
    is_command_allowed ⟨["rm"], ["/tmp"]⟩ "rm -rf /etc" = false ∧
    (∀ c, execute_command ⟨["rm"], ["/tmp"]⟩ (some "rm -rf /etc") ≠
      ExecuteResponse.scheduled c) ∧
    execute_command ⟨["rm"], ["/tmp"]⟩ (some "rm -rf /etc") =
      ExecuteResponse.notAllowed :=
  path_restriction_denies ⟨["rm"], ["/tmp"]⟩ "rm -rf /etc" "rm" ["-rf", "/etc"] "/etc"
    (by decide) (by decide) (by decide) (by decide) (by decide)

/-- C7: no streaming subscriber ever receives a terminal event, let alone
exactly one.  On the real path the queue is never registered at all:
`start_execution` raises before the registration, leaving queue and
registration untouched.  Even granting a registered queue and a stored
row, the background task appends exactly the end-of-stream sentinel and
nothing else — its running and completion events sit beyond calls that
raise — so zero terminal events precede the lone sentinel, not the
exactly-one the claim requires. -/
theorem stream_never_carries_terminal_event :
    (∀ (streaming : Bool) (s : SvcState),
      (start_execution_svc streaming s).1.registered = s.registered ∧
      (start_execution_svc streaming s).1.queue = s.queue) ∧
    (∀ (agentFound : Bool) (result : AgentResult) (r : ExecRecord)
        (q : List (Option StreamEvent)) (task : Bool) (n : Nat),
      (execute_agent_bg agentFound result ⟨some r, q, true, task, n⟩).1.queue =
        q ++ [none] ∧
      (execute_agent_bg agentFound result ⟨some r, q, true, task, n⟩).1.registered =
        false) ∧
    ([(none : Option StreamEvent)].countP isTerminalEvent = 0 ∧
      [(none : Option StreamEvent)].countP isSentinel = 1) := by
  refine ⟨?_, ?_, by decide⟩
  · intro streaming s
    exact ⟨rfl, rfl⟩
  · intro agentFound result r q task n
    exact ⟨rfl, rfl⟩

/-- C8: the monitoring loop of `execute_command_task` does not enforce the
timeout within a small bound.  A silent process that exits at 10 s under a
1 s limit (the spec scenario `sleep 10` with timeout 1) is reported as timed
out only at 10 s, because `readline` blocks until the process exits; and for
a silent process that never exits the loop blocks forever for every fuel,
producing no result at all. -/
theorem timeout_not_enforced_for_silent_process :
    execute_command_task_loop 5 1 ⟨some 10, 0, []⟩ 0 =
      some ⟨TaskOutcome.timedOut, 10⟩ ∧
    ¬ (some ⟨TaskOutcome.timedOut, 10⟩ : Option TaskResult).all
        (fun r => r.finishTime ≤ 1 + 1) = true ∧
    (∀ fuel : Nat, execute_command_task_loop fuel 1 ⟨none, 0, []⟩ 0 = none) := by
  refine ⟨by decide, by decide, ?_⟩
  intro fuel
  cases fuel with
  | zero => rfl
  | succ n => rfl

/-- C9 (counterexample): cancel of a stored completed execution is not
rejected with the invalid-state error: `get_by_id` raises the pydantic
validation error while converting the row — its `metadata` field receives
the SQLAlchemy `MetaData` registry — before the status guard is even
reached, so the exception the caller sees is not the `ValueError` of
line 766. -/
theorem cancel_terminal_counterexample :
    cancel_execution_svc ⟨some ⟨"completed", some "out", none⟩, [], false, false, 0⟩ =
      (⟨some ⟨"completed", some "out", none⟩, [], false, false, 0⟩,
        CancelResult.exc (PyExc.validationError "metadata: dictionary required")) ∧
    (∀ m : String,
      CancelResult.exc (PyExc.validationError "metadata: dictionary required") ≠
        CancelResult.exc (PyExc.valueError m)) := by
  constructor
  · rfl
  · intro m h
    injection h with h2
    injection h2

/-- C9 (amended): cancel on an unknown execution id returns `None` without
raising; cancel on any stored execution — whatever its status — raises the
row-conversion error before modifying any state, so the rejection is an
exception but not the invalid-state error; and the invalid-state guard is
not status-discriminating anyway, since the domain status member of a
converted entity never equals either core-enum member, for every domain
status. -/
theorem cancel_rejection_not_invalid_state :
    (∀ (q : List (Option StreamEvent)) (reg task : Bool) (n : Nat),
      cancel_execution_svc ⟨none, q, reg, task, n⟩ =
        (⟨none, q, reg, task, n⟩, CancelResult.notFound)) ∧
    (∀ (r : ExecRecord) (q : List (Option StreamEvent)) (reg task : Bool) (n : Nat),
      cancel_execution_svc ⟨some r, q, reg, task, n⟩ =
        (⟨some r, q, reg, task, n⟩,
          CancelResult.exc (PyExc.validationError "metadata: dictionary required"))) ∧
    (∀ ds : DomainStatus, statusGuardAllows (domainStatusMember ds) = false) := by
  refine ⟨?_, ?_, ?_⟩
  · intro q reg task n
    rfl
  · intro r q reg task n
    rfl
  · intro ds
    cases ds <;> rfl

/-- helper for C10: a character list consisting only of whitespace yields no
tokens. -/
theorem tokensAux_whitespace (cs : List Char)
    (h : ∀ c ∈ cs, c.isWhitespace = true) : tokensAux cs [] = [] := by
  induction cs with
  | nil => rfl
  | cons c cs ih =>
    have hc : c.isWhitespace = true := h c (List.mem_cons_self c cs)
    have hcs : ∀ x ∈ cs, x.isWhitespace = true :=
      fun x hx => h x (List.mem_cons_of_mem _ hx)
    simp [tokensAux, hc, ih hcs]

/-- C10: a command text consisting only of whitespace (in particular the
empty string) has no first token, `is_command_allowed` returns false rather
than raising on the missing token, and the `/api/execute` endpoint rejects
it with the `Command not allowed` response instead of scheduling a
process. -/
theorem empty_command_rejected (config : AllowedCommandsConfig) (command : String)
    (h : ∀ c ∈ command.data, c.isWhitespace = true) :
    is_command_allowed config command = false ∧
    execute_command config (some command) = ExecuteResponse.notAllowed := by
  have hsplit : pySplit command = [] := tokensAux_whitespace command.data h
  have hallowed : is_command_allowed config command = false := by
    simp only [is_command_allowed, hsplit]
  exact ⟨hallowed, by simp [execute_command, hallowed]⟩

/-- C10 (witness): the empty string is rejected, not scheduled. -/
theorem empty_command_rejected_witness :
    is_command_allowed ⟨["ls", "echo"], ["/tmp"]⟩ "" = false ∧
    execute_command ⟨["ls", "echo"], ["/tmp"]⟩ (some "") =
      ExecuteResponse.notAllowed :=
  empty_command_rejected ⟨["ls", "echo"], ["/tmp"]⟩ "" (by decide)
